import Mathlib

/-
Verification of the AIAm Focus Timer launcher (src/focus_timer.py).

The launcher resolves <install_dir>/ui/build, exits with a message if the
path is missing, otherwise changes directory there, binds a TCPServer on
port 8000, opens a browser best-effort, and serves until interrupted.

The embedding below models paths as lists of segments and one execution of
the program as a trace of observable events, as a function of the
environment (filesystem state at the build path and the results the OS
gives to each effectful call).
-/

set_option maxRecDepth 1000000

namespace FocusTimer

/-- A POSIX-style filesystem path: an absoluteness flag plus the list of
path segments. This models the pathlib.Path values the launcher builds. -/
structure PyPath where
  absolute : Bool
  segments : List String
deriving DecidableEq, Repr

/-- pathlib p.parent: drops the final segment (the parent of the anchor is
the anchor itself, which dropLast on [] also gives). -/
def PyPath.parent (p : PyPath) : PyPath :=
  { p with segments := p.segments.dropLast }

/-- pathlib p / seg for a single relative segment: appends the segment. -/
def PyPath.child (p : PyPath) (seg : String) : PyPath :=
  { p with segments := p.segments ++ [seg] }

/-- src/focus_timer.py, build_dir:
repo_root = Path(__file__).resolve().parent; return repo_root / "ui" / "build".
The argument is the already-resolved absolute path of the installed launcher
file, the only input the function reads. -/
def build_dir (file_resolved : PyPath) : PyPath :=
  (file_resolved.parent.child "ui").child "build"

/-- src/focus_timer.py: PORT = 8000. -/
def PORT : Nat := 8000

/-- The remediation message printed when ./ui/build is missing
(src/focus_timer.py lines 32-38). -/
def buildNotFoundMsg : String :=
  "⚠️  React build not found at ./ui/build.\nMake sure you run:\n    cd ui\n    npm install\n    npm run build\n"

/-- The trailing build steps inside the remediation message. -/
def buildStepsText : String :=
  "    cd ui\n    npm install\n    npm run build\n"

/-- url = f"http://localhost:8000" with PORT = 8000. -/
def url : String := "http://localhost:8000"

/-- The status line printed once the server is up. -/
def runningMsg : String := "🌱 AIAm Focus Timer running at " ++ url

/-- The second startup line. -/
def pressCtrlCMsg : String := "Press Ctrl+C to stop."

/-- The farewell line printed on KeyboardInterrupt. -/
def shutdownMsg : String := "\n👋 Shutting down server..."

/-- OS-level errors that the environment can raise at the modelled call
sites of run(). -/
inductive Err where
  | notADirectory
  | addrInUse
  | permDenied
  | generic
deriving DecidableEq, Repr, Fintype

/-- Rendering of an error as it appears interpolated into a message. -/
def errText : Err → String
  | .notADirectory => "NotADirectoryError"
  | .addrInUse => "OSError: [Errno 98] Address already in use"
  | .permDenied => "PermissionError"
  | .generic => "Exception"

/-- The warning printed when webbrowser.open raises:
print(f"Could not open browser automatically: ...e..."). -/
def browserWarnMsg (e : Err) : String :=
  "Could not open browser automatically: " ++ errText e

/-- Outcome of webbrowser.open(url): it returns a Bool, or raises. -/
inductive BrowserOutcome where
  | returns (opened : Bool)
  | raises (e : Err)
deriving DecidableEq, Repr, Fintype

/-- Outcome of httpd.serve_forever(): the loop never returns normally; it
ends by KeyboardInterrupt or by some other escaping exception. -/
inductive ServeOutcome where
  | interrupt
  | raises (e : Err)
deriving DecidableEq, Repr, Fintype

/-- The environment one execution of the launcher runs in: the filesystem
state at the resolved build path and the result of each effectful call. -/
structure World where
  rootExists : Bool
  rootIsDir : Bool
  bindResult : Option Err
  browserResult : BrowserOutcome
  serveOutcome : ServeOutcome
deriving DecidableEq, Repr, Fintype

/-- Observable events of one execution of the launcher process. -/
inductive Event where
  | print (msg : String)
  | exitProc (code : Nat)
  | chdir
  | sockCreate (host : String) (port : Nat)
  | sockBound
  | sockClosed
  | serveLoop
  | openBrowser (u : String)
  | raiseErr (e : Err)
deriving DecidableEq, Repr

/-- Events of the browser block (src/focus_timer.py lines 51-54):
try: webbrowser.open(url) except Exception as e: print warning. A False
return from webbrowser.open takes the same path as True: no warning. -/
def browserEvents : BrowserOutcome → List Event
  | .returns _ => [.openBrowser url]
  | .raises e => [.openBrowser url, .print (browserWarnMsg e)]

/-- Events of the serve block (src/focus_timer.py lines 56-60) together
with the close performed by the with-statement and the final process exit.
On KeyboardInterrupt the handler prints the farewell and calls
httpd.server_close(); leaving the with-block calls server_close() again;
run() returns and the script exits with status 0. Any other exception
escaping serve_forever is closed over by the with-statement and propagates
uncaught. -/
def serveEvents : ServeOutcome → List Event
  | .interrupt =>
      [.serveLoop, .print shutdownMsg, .sockClosed, .sockClosed, .exitProc 0]
  | .raises e => [.serveLoop, .sockClosed, .raiseErr e]

/-- The observable trace of `python focus_timer.py` as a function of the
environment, mirroring run() (src/focus_timer.py lines 28-60) line by line:
the existence check uses root.exists() only; os.chdir raises
NotADirectoryError when the existing path is not a directory;
socketserver.TCPServer(("", PORT), handler) creates a socket and attempts
to bind, and on failure its constructor closes the fresh socket and
re-raises; on success the two startup lines are printed, the browser block
runs, then the serve block. -/
def progTrace (w : World) : List Event :=
  if w.rootExists = false then
    [.print buildNotFoundMsg, .exitProc 1]
  else if w.rootIsDir = false then
    [.raiseErr .notADirectory]
  else
    Event.chdir ::
    match w.bindResult with
    | some e => [.sockCreate "" PORT, .sockClosed, .raiseErr e]
    | none =>
        [.sockCreate "" PORT, .sockBound, .print runningMsg, .print pressCtrlCMsg]
          ++ browserEvents w.browserResult
          ++ serveEvents w.serveOutcome

/-- True exactly on socket-creation events. -/
def isSockCreate : Event → Bool
  | .sockCreate _ _ => true
  | _ => false

/-- True exactly on prints of a browser warning line (the four possible
interpolations of the modelled errors). -/
def isBrowserWarn (ev : Event) : Bool :=
  [Err.notADirectory, Err.addrInUse, Err.permDenied, Err.generic].any
    (fun e => ev = Event.print (browserWarnMsg e))

/-- Whether webbrowser.open raised in this environment. -/
def browserRaised (w : World) : Bool :=
  match w.browserResult with
  | .raises _ => true
  | .returns _ => false

/-- posixpath.normpath, number of initial slashes kept: POSIX keeps exactly
two initial slashes, and collapses one or three-plus to one. From the
pure-Python branch of CPython 3.11 posixpath.normpath. -/
def initialSlashes (path : String) : Nat :=
  if path.startsWith "/" then
    (if path.startsWith "//" && !(path.startsWith "///") then 2 else 1)
  else 0

/-- One iteration of the component loop of posixpath.normpath: empty and
"." components are dropped; ".." is appended when at the start of a
relative path or after a kept ".."; otherwise ".." pops the previous
component when one exists. -/
def normpathStep (initSlashes : Nat) (acc : List String) (comp : String) : List String :=
  if comp = "" ∨ comp = "." then acc
  else if comp ≠ ".." ∨ (initSlashes = 0 ∧ acc = []) ∨ acc.getLast? = some ".." then
    acc ++ [comp]
  else if acc ≠ [] then acc.dropLast
  else acc

/-- posixpath.normpath (CPython 3.11, pure-Python branch): split on "/",
run the component loop, rejoin, restore initial slashes, with "." for the
empty result. -/
def posixNormpath (path : String) : String :=
  if path = "" then "."
  else
    let isl := initialSlashes path
    let comps := (path.splitOn "/").foldl (normpathStep isl) []
    let joined := String.intercalate "/" comps
    let out := String.join (List.replicate isl "/") ++ joined
    if out = "" then "." else out

/-- http.server.SimpleHTTPRequestHandler.translate_path (CPython 3.11,
lines 829-857), at the level of path segments: the serving directory is
the list of segments of self.directory, which for the launcher is the
validated build directory because run() calls os.chdir(root) before the
handler is constructed. `decoded` is the request path after the query and
fragment splits and after urllib.parse.unquote; it is universally
quantified in the theorems below, so they hold for every raw request
whatever unquote returns. The decoded path is normalised by
posixpath.normpath and split on "/"; filter(None, words) drops empty
components; a component is appended with os.path.join unless it equals
os.curdir ".", os.pardir "..", or has a nonempty os.path.dirname, which on
POSIX is impossible for the output of a split on "/". The trailing-slash
re-append of the original function changes only the final string form, not
which filesystem entry the path names. -/
def translate_path (directory : List String) (decoded : String) : List String :=
  (((posixNormpath decoded).splitOn "/").filter (fun w => w ≠ "")).foldl
    (fun p word => if word = "." ∨ word = ".." then p else p ++ [word]) directory

/-- The append loop of translate_path only ever appends components of its
input list that are neither "." nor "..", to the end of the base path. -/
theorem translate_fold_spec (ws : List String) (dir : List String) :
    ∃ ts, ws.foldl (fun p word => if word = "." ∨ word = ".." then p else p ++ [word]) dir
        = dir ++ ts ∧ ∀ t ∈ ts, t ∈ ws ∧ t ≠ "." ∧ t ≠ ".." := by
  induction ws generalizing dir with
  | nil => exact ⟨[], by simp, by simp⟩
  | cons a tl ih =>
    by_cases ha : a = "." ∨ a = ".."
    · obtain ⟨ts, h1, h2⟩ := ih dir
      refine ⟨ts, ?_, ?_⟩
      · simpa [ha] using h1
      · intro t ht
        exact ⟨List.mem_cons_of_mem _ (h2 t ht).1, (h2 t ht).2.1, (h2 t ht).2.2⟩
    · obtain ⟨ts, h1, h2⟩ := ih (dir ++ [a])
      refine ⟨a :: ts, ?_, ?_⟩
      · rw [List.foldl_cons, if_neg ha] at *
        rw [h1, List.append_assoc]
        simp
      · intro t ht
        rcases List.mem_cons.mp ht with rfl | ht2
        · push_neg at ha
          exact ⟨List.mem_cons_self _ _, ha.1, ha.2⟩
        · exact ⟨List.mem_cons_of_mem _ (h2 t ht2).1, (h2 t ht2).2.1, (h2 t ht2).2.2⟩

/-- C1 counterexample: in the filesystem state where the resolved build
path exists but is a regular file (not a directory), run does not print the
remediation message and does not exit with status 1: root.exists() passes
the check and os.chdir raises an uncaught NotADirectoryError. The claim as
stated, quantified over every state where the path is not a directory, is
therefore false. -/
theorem C1_regular_file_counterexample :
    (⟨true, false, none, BrowserOutcome.returns true, ServeOutcome.interrupt⟩ : World).rootExists
        = true ∧
    (⟨true, false, none, BrowserOutcome.returns true, ServeOutcome.interrupt⟩ : World).rootIsDir
        = false ∧
    Event.print buildNotFoundMsg ∉
      progTrace ⟨true, false, none, BrowserOutcome.returns true, ServeOutcome.interrupt⟩ ∧
    Event.exitProc 1 ∉
      progTrace ⟨true, false, none, BrowserOutcome.returns true, ServeOutcome.interrupt⟩ ∧
    progTrace ⟨true, false, none, BrowserOutcome.returns true, ServeOutcome.interrupt⟩
        = [Event.raiseErr Err.notADirectory] := by
  decide

/-- C1 (amended): if the resolved build path does not exist, run prints the
human-readable remediation message, which contains the required build
steps, and terminates the process with exit status 1. -/
theorem C1_missing_build_dir (w : World) (h : w.rootExists = false) :
    progTrace w = [Event.print buildNotFoundMsg, Event.exitProc 1] ∧
    buildNotFoundMsg =
      "⚠️  React build not found at ./ui/build.\nMake sure you run:\n" ++ buildStepsText := by
  revert w
  decide

/-- C1 witness at a concrete absent-directory state. -/
theorem C1_missing_build_dir_witness :
    progTrace ⟨false, false, none, BrowserOutcome.returns true, ServeOutcome.interrupt⟩
        = [Event.print buildNotFoundMsg, Event.exitProc 1] ∧
    buildNotFoundMsg =
      "⚠️  React build not found at ./ui/build.\nMake sure you run:\n" ++ buildStepsText :=
  C1_missing_build_dir ⟨false, false, none, BrowserOutcome.returns true, ServeOutcome.interrupt⟩
    rfl

/-- C2: in every execution where the build directory is absent, no socket
is ever created or bound and the serve loop is never entered: socket
creation comes after the existence check has succeeded. -/
theorem C2_no_bind_when_absent (w : World) (h : w.rootExists = false) :
    (progTrace w).all (fun ev => !(isSockCreate ev)) = true ∧
    Event.sockBound ∉ progTrace w ∧
    Event.serveLoop ∉ progTrace w := by
  revert w
  decide

/-- C2 witness at a concrete absent-directory state. -/
theorem C2_no_bind_when_absent_witness :
    (progTrace ⟨false, true, none, BrowserOutcome.returns true, ServeOutcome.interrupt⟩).all
        (fun ev => !(isSockCreate ev)) = true ∧
    Event.sockBound ∉
      progTrace ⟨false, true, none, BrowserOutcome.returns true, ServeOutcome.interrupt⟩ ∧
    Event.serveLoop ∉
      progTrace ⟨false, true, none, BrowserOutcome.returns true, ServeOutcome.interrupt⟩ :=
  C2_no_bind_when_absent ⟨false, true, none, BrowserOutcome.returns true, ServeOutcome.interrupt⟩
    rfl

/-- C3: build_dir is a pure function of the resolved install location of
the launcher file and returns an absolute path equal to the parent
directory of that file with the two fixed segments "ui" then "build"
appended, for every install location. -/
theorem C3_build_dir_shape (p : PyPath) (h : p.absolute = true) :
    (build_dir p).absolute = true ∧
    (build_dir p).segments = p.segments.dropLast ++ ["ui", "build"] := by
  refine ⟨?_, ?_⟩
  · simpa [build_dir, PyPath.child, PyPath.parent] using h
  · simp [build_dir, PyPath.child, PyPath.parent]

/-- C3 witness at a concrete install location. -/
theorem C3_build_dir_shape_witness :
    (build_dir ⟨true, ["home", "user", "app", "focus_timer.py"]⟩).absolute = true ∧
    (build_dir ⟨true, ["home", "user", "app", "focus_timer.py"]⟩).segments =
      (["home", "user", "app", "focus_timer.py"] : List String).dropLast ++ ["ui", "build"] :=
  C3_build_dir_shape ⟨true, ["home", "user", "app", "focus_timer.py"]⟩ rfl

/-- C4: when the build directory exists as a directory and the bind
succeeds, run changes the working directory to it before creating and
binding the socket, binds on host "" (all local interfaces) and fixed port
8000, and prints a status line that contains http://localhost:8000. -/
theorem C4_startup (w : World) (h1 : w.rootExists = true) (h2 : w.rootIsDir = true)
    (h3 : w.bindResult = none) :
    progTrace w =
      [Event.chdir, Event.sockCreate "" 8000, Event.sockBound,
        Event.print runningMsg, Event.print pressCtrlCMsg]
        ++ browserEvents w.browserResult ++ serveEvents w.serveOutcome ∧
    (progTrace w).indexOf Event.chdir < (progTrace w).indexOf (Event.sockCreate "" 8000) ∧
    runningMsg = "🌱 AIAm Focus Timer running at " ++ url ∧
    url = "http://localhost:8000" := by
  revert w
  decide

/-- C4 witness at a concrete successful startup. -/
theorem C4_startup_witness :
    progTrace ⟨true, true, none, BrowserOutcome.returns true, ServeOutcome.interrupt⟩ =
      [Event.chdir, Event.sockCreate "" 8000, Event.sockBound,
        Event.print runningMsg, Event.print pressCtrlCMsg]
        ++ browserEvents (BrowserOutcome.returns true) ++ serveEvents ServeOutcome.interrupt ∧
    (progTrace ⟨true, true, none, BrowserOutcome.returns true, ServeOutcome.interrupt⟩).indexOf
        Event.chdir <
      (progTrace ⟨true, true, none, BrowserOutcome.returns true, ServeOutcome.interrupt⟩).indexOf
        (Event.sockCreate "" 8000) ∧
    runningMsg = "🌱 AIAm Focus Timer running at " ++ url ∧
    url = "http://localhost:8000" :=
  C4_startup ⟨true, true, none, BrowserOutcome.returns true, ServeOutcome.interrupt⟩ rfl rfl rfl

/-- C5 counterexample: in an interrupted run both the shutdown print and
the socket close occur, but the shutdown message is printed strictly
before the listening socket is first closed, so the order stated by the
claim (socket closed, then message printed) is false. -/
theorem C5_order_counterexample :
    Event.print shutdownMsg ∈
      progTrace ⟨true, true, none, BrowserOutcome.returns true, ServeOutcome.interrupt⟩ ∧
    Event.sockClosed ∈
      progTrace ⟨true, true, none, BrowserOutcome.returns true, ServeOutcome.interrupt⟩ ∧
    (progTrace ⟨true, true, none, BrowserOutcome.returns true, ServeOutcome.interrupt⟩).indexOf
        (Event.print shutdownMsg) <
      (progTrace ⟨true, true, none, BrowserOutcome.returns true, ServeOutcome.interrupt⟩).indexOf
        Event.sockClosed := by
  decide

/-- C5 (amended): when an interrupt arrives while serving, the serve loop
exits, a shutdown message is printed, the listening socket is closed (by
the handler and again by the with-statement), and the process exits with
status 0, in that order. -/
theorem C5_interrupt_shutdown (w : World) (h1 : w.rootExists = true)
    (h2 : w.rootIsDir = true) (h3 : w.bindResult = none)
    (h4 : w.serveOutcome = ServeOutcome.interrupt) :
    progTrace w =
      [Event.chdir, Event.sockCreate "" 8000, Event.sockBound,
        Event.print runningMsg, Event.print pressCtrlCMsg]
        ++ browserEvents w.browserResult
        ++ [Event.serveLoop, Event.print shutdownMsg, Event.sockClosed,
            Event.sockClosed, Event.exitProc 0] ∧
    (progTrace w).indexOf Event.serveLoop < (progTrace w).indexOf (Event.print shutdownMsg) ∧
    (progTrace w).indexOf (Event.print shutdownMsg) < (progTrace w).indexOf Event.sockClosed ∧
    (progTrace w).indexOf Event.sockClosed < (progTrace w).indexOf (Event.exitProc 0) ∧
    (progTrace w).getLast? = some (Event.exitProc 0) := by
  revert w
  decide

/-- C5 witness at a concrete interrupted run. -/
theorem C5_interrupt_shutdown_witness :
    progTrace ⟨true, true, none, BrowserOutcome.returns false, ServeOutcome.interrupt⟩ =
      [Event.chdir, Event.sockCreate "" 8000, Event.sockBound,
        Event.print runningMsg, Event.print pressCtrlCMsg]
        ++ browserEvents (BrowserOutcome.returns false)
        ++ [Event.serveLoop, Event.print shutdownMsg, Event.sockClosed,
            Event.sockClosed, Event.exitProc 0] ∧
    (progTrace ⟨true, true, none, BrowserOutcome.returns false, ServeOutcome.interrupt⟩).indexOf
        Event.serveLoop <
      (progTrace ⟨true, true, none, BrowserOutcome.returns false, ServeOutcome.interrupt⟩).indexOf
        (Event.print shutdownMsg) ∧
    (progTrace ⟨true, true, none, BrowserOutcome.returns false, ServeOutcome.interrupt⟩).indexOf
        (Event.print shutdownMsg) <
      (progTrace ⟨true, true, none, BrowserOutcome.returns false, ServeOutcome.interrupt⟩).indexOf
        Event.sockClosed ∧
    (progTrace ⟨true, true, none, BrowserOutcome.returns false, ServeOutcome.interrupt⟩).indexOf
        Event.sockClosed <
      (progTrace ⟨true, true, none, BrowserOutcome.returns false, ServeOutcome.interrupt⟩).indexOf
        (Event.exitProc 0) ∧
    (progTrace ⟨true, true, none, BrowserOutcome.returns false, ServeOutcome.interrupt⟩).getLast?
        = some (Event.exitProc 0) :=
  C5_interrupt_shutdown ⟨true, true, none, BrowserOutcome.returns false, ServeOutcome.interrupt⟩
    rfl rfl rfl rfl

/-- C6 counterexample: when webbrowser.open fails without raising (returns
False, e.g. no browser registered), no warning line is printed, so the
claim that every failure of the browser-open call leads to a logged
warning is false; the run does still proceed to the serve loop. -/
theorem C6_silent_failure_counterexample :
    (progTrace ⟨true, true, none, BrowserOutcome.returns false, ServeOutcome.raises
        Err.generic⟩).any isBrowserWarn = false ∧
    Event.serveLoop ∈
      progTrace ⟨true, true, none, BrowserOutcome.returns false, ServeOutcome.raises
        Err.generic⟩ := by
  decide

/-- C6 (amended): every exception raised by the browser-open call is
caught: the warning line is printed and run still proceeds, after the
warning, to the serve loop and continues serving; the server is not
aborted. (A failure to open that does not raise prints no warning but also
does not abort; see C10.) -/
theorem C6_browser_exception_nonfatal (w : World) (e : Err) (h1 : w.rootExists = true)
    (h2 : w.rootIsDir = true) (h3 : w.bindResult = none)
    (hb : w.browserResult = BrowserOutcome.raises e) :
    Event.print (browserWarnMsg e) ∈ progTrace w ∧
    Event.serveLoop ∈ progTrace w ∧
    (progTrace w).indexOf (Event.print (browserWarnMsg e)) <
      (progTrace w).indexOf Event.serveLoop := by
  revert w e
  decide

/-- C6 witness at a concrete raising browser call. -/
theorem C6_browser_exception_nonfatal_witness :
    Event.print (browserWarnMsg Err.generic) ∈
      progTrace ⟨true, true, none, BrowserOutcome.raises Err.generic, ServeOutcome.interrupt⟩ ∧
    Event.serveLoop ∈
      progTrace ⟨true, true, none, BrowserOutcome.raises Err.generic, ServeOutcome.interrupt⟩ ∧
    (progTrace ⟨true, true, none, BrowserOutcome.raises Err.generic,
        ServeOutcome.interrupt⟩).indexOf (Event.print (browserWarnMsg Err.generic)) <
      (progTrace ⟨true, true, none, BrowserOutcome.raises Err.generic,
        ServeOutcome.interrupt⟩).indexOf Event.serveLoop :=
  C6_browser_exception_nonfatal
    ⟨true, true, none, BrowserOutcome.raises Err.generic, ServeOutcome.interrupt⟩
    Err.generic rfl rfl rfl rfl

/-- C7: in every environment, whenever the listening socket is acquired it
is also closed, later in the trace: every exit path out of the serving
region (interrupt, escaping exception; the loop has no normal exit)
releases the socket. -/
theorem C7_socket_released (w : World) (h : Event.sockBound ∈ progTrace w) :
    Event.sockClosed ∈ progTrace w ∧
    (progTrace w).indexOf Event.sockBound < (progTrace w).indexOf Event.sockClosed := by
  revert w
  decide

/-- C7 witness at a concrete run that acquires the socket and exits by an
escaping exception. -/
theorem C7_socket_released_witness :
    Event.sockClosed ∈
      progTrace ⟨true, true, none, BrowserOutcome.returns true, ServeOutcome.raises
        Err.generic⟩ ∧
    (progTrace ⟨true, true, none, BrowserOutcome.returns true, ServeOutcome.raises
        Err.generic⟩).indexOf Event.sockBound <
      (progTrace ⟨true, true, none, BrowserOutcome.returns true, ServeOutcome.raises
        Err.generic⟩).indexOf Event.sockClosed :=
  C7_socket_released
    ⟨true, true, none, BrowserOutcome.returns true, ServeOutcome.raises Err.generic⟩
    (by decide)

/-- C8: when socket creation raises (address in use, permission denied, or
any other error), nothing in run catches it: the trace ends with the
uncaught exception, the startup lines are never printed, the serve loop is
never entered, and the process does not exit with status 0. -/
theorem C8_bind_error_uncaught (w : World) (e : Err) (h1 : w.rootExists = true)
    (h2 : w.rootIsDir = true) (h3 : w.bindResult = some e) :
    progTrace w = [Event.chdir, Event.sockCreate "" 8000, Event.sockClosed, Event.raiseErr e] ∧
    (progTrace w).getLast? = some (Event.raiseErr e) ∧
    Event.serveLoop ∉ progTrace w ∧
    Event.exitProc 0 ∉ progTrace w ∧
    Event.print runningMsg ∉ progTrace w := by
  revert w e
  decide

/-- C8 witness at a concrete address-in-use bind failure. -/
theorem C8_bind_error_uncaught_witness :
    progTrace ⟨true, true, some Err.addrInUse, BrowserOutcome.returns true,
        ServeOutcome.interrupt⟩
        = [Event.chdir, Event.sockCreate "" 8000, Event.sockClosed,
            Event.raiseErr Err.addrInUse] ∧
    (progTrace ⟨true, true, some Err.addrInUse, BrowserOutcome.returns true,
        ServeOutcome.interrupt⟩).getLast? = some (Event.raiseErr Err.addrInUse) ∧
    Event.serveLoop ∉
      progTrace ⟨true, true, some Err.addrInUse, BrowserOutcome.returns true,
        ServeOutcome.interrupt⟩ ∧
    Event.exitProc 0 ∉
      progTrace ⟨true, true, some Err.addrInUse, BrowserOutcome.returns true,
        ServeOutcome.interrupt⟩ ∧
    Event.print runningMsg ∉
      progTrace ⟨true, true, some Err.addrInUse, BrowserOutcome.returns true,
        ServeOutcome.interrupt⟩ :=
  C8_bind_error_uncaught
    ⟨true, true, some Err.addrInUse, BrowserOutcome.returns true, ServeOutcome.interrupt⟩
    Err.addrInUse rfl rfl rfl

/-- C9: path containment of the file-serving handler. For every serving
directory and every decoded request path (whatever urllib.parse.unquote
produced), translate_path returns the serving directory extended only by
components that are nonempty and neither "." nor "..": the resolved path
never leaves the serving root, so no file outside the build directory can
be returned. -/
theorem C9_path_containment (directory : List String) (decoded : String) :
    ∃ ts, translate_path directory decoded = directory ++ ts ∧
      ∀ t ∈ ts, t ≠ "" ∧ t ≠ "." ∧ t ≠ ".." := by
  unfold translate_path
  obtain ⟨ts, h1, h2⟩ :=
    translate_fold_spec (((posixNormpath decoded).splitOn "/").filter (fun w => w ≠ ""))
      directory
  refine ⟨ts, h1, fun t ht => ?_⟩
  obtain ⟨hmem, hdot, hdd⟩ := h2 t ht
  have hne : t ≠ "" := by
    have := List.mem_filter.mp hmem
    simpa using this.2
  exact ⟨hne, hdot, hdd⟩

/-- C10: once the server is up, a browser warning line is printed if and
only if webbrowser.open raised; when it fails by returning False, nothing
is printed and the run silently proceeds to the serve loop. -/
theorem C10_warning_iff_raise (w : World) (h1 : w.rootExists = true)
    (h2 : w.rootIsDir = true) (h3 : w.bindResult = none) :
    (progTrace w).any isBrowserWarn = browserRaised w ∧
    (w.browserResult = BrowserOutcome.returns false →
      (progTrace w).any isBrowserWarn = false ∧ Event.serveLoop ∈ progTrace w) := by
  revert w
  decide

/-- C10 witness at a concrete silently-failing browser call. -/
theorem C10_warning_iff_raise_witness :
    (progTrace ⟨true, true, none, BrowserOutcome.returns false, ServeOutcome.interrupt⟩).any
        isBrowserWarn
      = browserRaised ⟨true, true, none, BrowserOutcome.returns false,
          ServeOutcome.interrupt⟩ ∧
    ((⟨true, true, none, BrowserOutcome.returns false, ServeOutcome.interrupt⟩ : World).browserResult
        = BrowserOutcome.returns false →
      (progTrace ⟨true, true, none, BrowserOutcome.returns false,
          ServeOutcome.interrupt⟩).any isBrowserWarn = false ∧
      Event.serveLoop ∈
        progTrace ⟨true, true, none, BrowserOutcome.returns false, ServeOutcome.interrupt⟩) :=
  C10_warning_iff_raise ⟨true, true, none, BrowserOutcome.returns false, ServeOutcome.interrupt⟩
    rfl rfl rfl

end FocusTimer
